import Mathlib

/-!
Verification of the blis arithmetic parser (`src/src/parser.rs`).

Shallow embedding conventions:

* Rust `f64` values are modelled exactly by the type `FP` below: a finite
  value is an exact rational, and the IEEE special values `±infinity` and
  `NaN` are explicit constructors.  All numeric literals appearing in the
  verified inputs are small integers, which `f64` represents exactly, so
  exact rational arithmetic coincides with `f64` arithmetic on every
  evaluation step that actually occurs in the theorems below.  (Negative
  zero is not modelled; no verified input produces it.)
* Rational arithmetic is implemented through `mkRat` / `Rat.divInt` on
  numerator and denominator (`ratAdd` and friends) so that the Lean kernel
  can evaluate it; the theorems `ratAdd_eq`, `ratSub_eq`, `ratMul_eq`,
  `ratDiv_eq` prove these are exactly Mathlib's `+ - * /` on `ℚ`.
* Rust `Vec` used as a stack (push/pop/top at the end) is modelled as a
  `List` whose head is the top of the stack.
* Strings are modelled as their `List Char`; the embedding is faithful for
  ASCII input (the Rust code indexes by `chars().nth` but compares the
  position against the byte length `len()`, which agree exactly on ASCII).
  Every input appearing in the claims is ASCII.
-/

namespace Blis

/-- Kernel-computable addition on `ℚ`: cross-multiplied numerators over the
product of denominators, normalized by `mkRat`.  Proved equal to `a + b` in
`ratAdd_eq`. -/
def ratAdd (a b : ℚ) : ℚ := mkRat (a.num * b.den + b.num * a.den) (a.den * b.den)

/-- Kernel-computable subtraction on `ℚ`; proved equal to `a - b` in `ratSub_eq`. -/
def ratSub (a b : ℚ) : ℚ := mkRat (a.num * b.den - b.num * a.den) (a.den * b.den)

/-- Kernel-computable multiplication on `ℚ`; proved equal to `a * b` in `ratMul_eq`. -/
def ratMul (a b : ℚ) : ℚ := mkRat (a.num * b.num) (a.den * b.den)

/-- Kernel-computable division on `ℚ`; proved equal to `a / b` in `ratDiv_eq`.
(Only invoked by the model with a nonzero divisor.) -/
def ratDiv (a b : ℚ) : ℚ := Rat.divInt (a.num * b.den) (a.den * b.num)

theorem ratAdd_eq (a b : ℚ) : ratAdd a b = a + b := by
  rw [ratAdd]
  conv_rhs => rw [← Rat.mkRat_self a, ← Rat.mkRat_self b]
  rw [Rat.mkRat_add_mkRat _ _ a.den_nz b.den_nz]

theorem ratSub_eq (a b : ℚ) : ratSub a b = a - b := by
  rw [ratSub]
  conv_rhs => rw [← Rat.num_divInt_den a, ← Rat.num_divInt_den b]
  rw [Rat.divInt_sub_divInt _ _ (Int.natCast_ne_zero.mpr a.den_nz)
    (Int.natCast_ne_zero.mpr b.den_nz), ← Int.natCast_mul, Rat.divInt_ofNat]

theorem ratMul_eq (a b : ℚ) : ratMul a b = a * b := by
  rw [ratMul]
  conv_rhs => rw [← Rat.mkRat_self a, ← Rat.mkRat_self b]
  rw [Rat.mkRat_mul_mkRat]

theorem ratDiv_eq (a b : ℚ) : ratDiv a b = a / b := by
  rw [ratDiv, Rat.div_def']

/-- Model of Rust `f64` for this development: exact rationals plus the IEEE
special values.  `inf true` is `+infinity`, `inf false` is `-infinity`. -/
inductive FP where
  | num (q : ℚ)
  | inf (pos : Bool)
  | nan
deriving DecidableEq

/-- IEEE addition on the model (`NaN` propagates; opposite infinities give `NaN`). -/
def FP.add : FP → FP → FP
  | .nan, _ => .nan
  | _, .nan => .nan
  | .num a, .num b => .num (ratAdd a b)
  | .num _, .inf s => .inf s
  | .inf s, .num _ => .inf s
  | .inf s, .inf t => if s = t then .inf s else .nan

/-- IEEE subtraction on the model. -/
def FP.sub : FP → FP → FP
  | .nan, _ => .nan
  | _, .nan => .nan
  | .num a, .num b => .num (ratSub a b)
  | .num _, .inf s => .inf (!s)
  | .inf s, .num _ => .inf s
  | .inf s, .inf t => if s = t then .nan else .inf s

/-- IEEE multiplication on the model.  The sign of a finite rational is read
off its numerator (`0 < q.num` iff `0 < q`); `0 * infinity` is `NaN`. -/
def FP.mul : FP → FP → FP
  | .nan, _ => .nan
  | _, .nan => .nan
  | .num a, .num b => .num (ratMul a b)
  | .num a, .inf s => if a.num = 0 then .nan else if 0 < a.num then .inf s else .inf (!s)
  | .inf s, .num b => if b.num = 0 then .nan else if 0 < b.num then .inf s else .inf (!s)
  | .inf s, .inf t => .inf (decide (s = t))

/-- IEEE division on the model.  A nonzero finite value divided by zero gives
a signed infinity, `0 / 0` gives `NaN` (`q = 0` iff `q.num = 0`; the zero of
`ℚ` is unsigned, matching `+0.0`, the only zero the verified inputs produce). -/
def FP.div : FP → FP → FP
  | .nan, _ => .nan
  | _, .nan => .nan
  | .num a, .num b =>
    if b.num = 0 then
      if a.num = 0 then .nan else if 0 < a.num then .inf true else .inf false
    else .num (ratDiv a b)
  | .inf s, .num b => if 0 ≤ b.num then .inf s else .inf (!s)
  | .num _, .inf _ => .num 0
  | .inf _, .inf _ => .nan

/-- `token::TokenType` (parser.rs:11-17).  The derived equality coincides with
the source's `PartialEq`, which is plain discriminant equality. -/
inductive TokenType where
  | Empty
  | Number
  | Operation
  | Function
  | Unknown
deriving DecidableEq

/-- `token::Token` (parser.rs:33-36). -/
structure Token where
  value : String
  token_type : TokenType
deriving DecidableEq

/-- `Token::is_empty` (parser.rs:51-53). -/
def Token.is_empty (t : Token) : Bool := t.token_type = TokenType.Empty

/-- `Token::is_number` (parser.rs:54-56). -/
def Token.is_number (t : Token) : Bool := t.token_type = TokenType.Number

/-- `Token::is_operation` (parser.rs:57-59). -/
def Token.is_operation (t : Token) : Bool := t.token_type = TokenType.Operation

/-- `common::ParseError` (parser.rs:72-77). -/
inductive ParseError where
  | InvalidOperation
  | OperationBalance
  | PopFailure
  | BadExpression
deriving DecidableEq

/-- `common::remove_whitespace` (parser.rs:80-82): `str.retain(|c| !c.is_whitespace())`. -/
def remove_whitespace (str : List Char) : List Char :=
  str.filter (fun c => !c.isWhitespace)

/-- `common::get_number` (parser.rs:94-101): starting at `pos`, accumulate
consecutive characters that are decimal digits or `'.'`.  The Rust `while`
loop collects exactly the longest such prefix of the remainder, i.e. a
`takeWhile`; the new position is the old one advanced past it. -/
def get_number (expression : List Char) (pos : Nat) : List Char × Nat :=
  let num := (expression.drop pos).takeWhile (fun c => c.isDigit || c == '.')
  (num, pos + num.length)

/-- `common::get_token` (parser.rs:104-125).  Returns the token together with
the advanced position.  The `none` branch of the inner match is unreachable
whenever `pos ≤ expression.length` (which `calculate` maintains): there the
Rust code would panic on `unwrap`; returning an `Unknown` token that does not
advance makes the surrounding fuelled loop exhaust its fuel, which the model
also treats as a panic. -/
def get_token (expression : List Char) (pos : Nat) : Token × Nat :=
  if pos = expression.length then
    (⟨"", TokenType.Empty⟩, pos)
  else
    match (expression.drop pos).head? with
    | none => (⟨"", TokenType.Unknown⟩, pos)
    | some c =>
      if c.isDigit then
        let r := get_number expression pos
        (⟨String.mk r.1, TokenType.Number⟩, r.2)
      else
        -- `get_operation` (parser.rs:86-90): one character, advance by one.
        (⟨String.mk [c], TokenType.Operation⟩, pos + 1)

/-- `common::get_priority` (parser.rs:128-143). -/
def get_priority (operation : String) : Except ParseError Int :=
  if operation = "(" then Except.ok (-1)
  else if operation = "*" ∨ operation = "/" then Except.ok 1
  else if operation = "+" ∨ operation = "-" then Except.ok 2
  else Except.error ParseError.InvalidOperation

/-- Value of a digit string (most significant first). -/
def digitsToNat (ds : List Char) : Nat :=
  ds.foldl (fun a c => a * 10 + (c.toNat - '0'.toNat)) 0

/-- Model of Rust `f64::from_str` on the literals produced by `get_number`:
a nonempty string of digits and dots starting with a digit.  Rust accepts at
most one dot (failure is `None`, on which `calculate`'s `unwrap` panics) and
yields the exact decimal value (rounded to the nearest `f64` in Rust; the
verified literals are all exactly representable, where rounding is the
identity). -/
def parseF64 (s : String) : Option ℚ :=
  let cs := s.data
  if 2 ≤ cs.count '.' then none
  else
    let intPart := cs.takeWhile (fun c => c ≠ '.')
    let fracPart := (cs.dropWhile (fun c => c ≠ '.')).drop 1
    some (mkRat (Int.ofNat (digitsToNat intPart * 10 ^ fracPart.length + digitsToNat fracPart))
      (10 ^ fracPart.length))

/-- `arithmetic_parser::Parser` (parser.rs:166-169).  Both `Vec` stacks are
lists whose head is the stack top (the `Vec`'s last element). -/
structure Parser where
  numbers : List FP
  operations : List String
deriving DecidableEq

/-- `Parser::can_pop_operation` (parser.rs:256-288).  The source's nested
matches on `prior1`/`prior2` collapse into one match; `top()` of a nonempty
`Vec` is always `Some`, so its `None` arm is dead. -/
def can_pop_operation (self : Parser) (operation : String) : Bool :=
  match self.operations with
  | [] => false
  | top :: _ =>
    match get_priority operation, get_priority top with
    | Except.ok p1, Except.ok p2 => decide (0 ≤ p1) && decide (0 ≤ p2) && decide (p2 ≤ p1)
    | _, _ => false

/-- `Parser::pop_number` (parser.rs:290-304).  On a nonempty stack `top()` is
always `Some`, so the source's inner `PopFailure` arm is dead; the empty stack
yields `OperationBalance`. -/
def pop_number (self : Parser) : Except ParseError (FP × Parser) :=
  match self.numbers with
  | x :: rest => Except.ok (x, { self with numbers := rest })
  | [] => Except.error ParseError.OperationBalance

/-- The operator dispatch at the end of `Parser::pop_operation`
(parser.rs:329-337): push `b <op> a`; an unrecognized operator pushes
nothing. -/
def apply_operation (operation : String) (b a : FP) (numbers : List FP) : List FP :=
  if operation = "+" then (b.add a) :: numbers
  else if operation = "-" then (b.sub a) :: numbers
  else if operation = "*" then (b.mul a) :: numbers
  else if operation = "/" then (b.div a) :: numbers
  else numbers

/-- `Parser::pop_operation` (parser.rs:306-340).  Errors carry the parser
state at the moment of the early `return`, mirroring the in-place mutation of
`self` (the first operand pop may already have happened). -/
def pop_operation (self : Parser) : Except (ParseError × Parser) Parser :=
  match pop_number self with
  | Except.error _ => Except.error (ParseError.OperationBalance, self)
  | Except.ok (a, p1) =>
    match pop_number p1 with
    | Except.error _ => Except.error (ParseError.OperationBalance, p1)
    | Except.ok (b, p2) =>
      match p2.operations with
      | [] => Except.error (ParseError.PopFailure, p2)
      | operation :: rest =>
        Except.ok { numbers := apply_operation operation b a p2.numbers, operations := rest }

theorem pop_number_operations (p : Parser) (a : FP) (q : Parser)
    (h : pop_number p = Except.ok (a, q)) : q.operations = p.operations := by
  rcases p with ⟨nums, ops⟩
  cases nums with
  | nil => simp [pop_number] at h
  | cons x rest =>
    simp only [pop_number, Except.ok.injEq, Prod.mk.injEq] at h
    rw [← h.2]

theorem pop_operation_ok_length (p q : Parser) (h : pop_operation p = Except.ok q) :
    q.operations.length < p.operations.length := by
  rcases p with ⟨nums, ops⟩
  match nums with
  | [] => simp [pop_operation, pop_number] at h
  | [a] => simp [pop_operation, pop_number] at h
  | a :: b :: rest =>
    simp only [pop_operation, pop_number] at h
    match ops with
    | [] => simp at h
    | op :: ops' =>
      simp only [Except.ok.injEq] at h
      rw [← h]
      simp

/-- The inner `while` loop of `Parser::calculate` for a closing parenthesis
(parser.rs:213-219), structurally recursive on a fuel so that the kernel can
evaluate it: while the operator stack is nonempty and its top is not `"("`,
pop-and-reduce, propagating errors.  Each successful `pop_operation` shortens
the operator stack by one (`pop_operation_ok_length`), so with the fuel
`drain_parens` supplies — the operator stack's length — fuel `0` is reached
only with an empty operator stack, where the `while` guard exits anyway: the
fuel-out arm returns exactly what the empty-stack arm would.
`drain_go_fuel_irrelevant` proves this: any fuel at least the stack length
gives the same result. -/
def drain_go : Nat → Parser → Except (ParseError × Parser) Parser
  | 0, p => Except.ok p
  | fuel + 1, p =>
    match p.operations with
    | [] => Except.ok p
    | top :: _ =>
      if top = "(" then Except.ok p
      else
        match pop_operation p with
        | Except.error ep => Except.error ep
        | Except.ok p' => drain_go fuel p'

/-- The closing-parenthesis `while` loop (parser.rs:213-219); see `drain_go`. -/
def drain_parens (p : Parser) : Except (ParseError × Parser) Parser :=
  drain_go p.operations.length p

theorem drain_go_succ (n : Nat) (p : Parser) (h : p.operations.length ≤ n) :
    drain_go (n + 1) p = drain_go n p := by
  induction n generalizing p with
  | zero =>
    have hops : p.operations = [] := List.length_eq_zero.mp (Nat.le_zero.mp h)
    simp [drain_go, hops]
  | succ n ih =>
    rw [drain_go]
    cases hops : p.operations with
    | nil => rw [drain_go, hops]
    | cons top rest =>
      rw [drain_go, hops]
      by_cases htop : top = "("
      · simp [htop]
      · simp only [htop, if_false]
        cases hpop : pop_operation p with
        | error ep => rfl
        | ok p' =>
          have hlt := pop_operation_ok_length p p' hpop
          exact ih p' (by omega)

theorem drain_go_add (m k : Nat) (p : Parser) (hm : p.operations.length ≤ m) :
    drain_go (m + k) p = drain_go m p := by
  induction k with
  | zero => rfl
  | succ k ih =>
    rw [show m + (k + 1) = (m + k) + 1 from rfl,
      drain_go_succ (m + k) p (Nat.le_trans hm (Nat.le_add_right m k)), ih]

theorem drain_go_fuel_irrelevant (m n : Nat) (p : Parser)
    (hm : p.operations.length ≤ m) (hn : p.operations.length ≤ n) :
    drain_go m p = drain_go n p := by
  rcases Nat.le_total m n with hmn | hmn
  · obtain ⟨k, rfl⟩ := Nat.le.dest hmn
    exact (drain_go_add m k p hm).symm
  · obtain ⟨k, rfl⟩ := Nat.le.dest hmn
    exact drain_go_add n k p hn

/-- Handling of an operation token in `Parser::calculate` (parser.rs:208-236):
a `")"` drains up to and including the matching `"("` (`Vec::pop` on an empty
stack is a no-op, hence `List.drop 1`); any other operation first performs one
pop-and-reduce if `can_pop_operation` allows it, then is pushed. -/
def handle_operation (op : String) (p : Parser) : Except (ParseError × Parser) Parser :=
  if op = ")" then
    match drain_parens p with
    | Except.error ep => Except.error ep
    | Except.ok p' => Except.ok { p' with operations := p'.operations.drop 1 }
  else
    if can_pop_operation p op then
      match pop_operation p with
      | Except.error ep => Except.error ep
      | Except.ok p' => Except.ok { p' with operations := op :: p'.operations }
    else
      Except.ok { p with operations := op :: p.operations }

/-- Result of processing one token: the updated parser, an early `return Err`,
or a Rust panic. -/
inductive StepResult where
  | ok (p : Parser)
  | err (e : ParseError) (p : Parser)
  | fault (p : Parser)
deriving DecidableEq

/-- The unary `+`/`-` rewrite of `Parser::calculate` (parser.rs:193-198): if
the token is `+` or `-` and the previous token is the operation `"("`, push a
`0` operand. -/
def unary_rewrite (token prevtoken : Token) (p : Parser) : Parser :=
  if token.is_operation && (token.value == "+" || token.value == "-")
      && prevtoken.is_operation && (prevtoken.value == "(") then
    { p with numbers := FP.num 0 :: p.numbers }
  else p

/-- One iteration of the main loop of `Parser::calculate` (parser.rs:189-243),
up to but excluding the `prevtoken` update and the loop-exit test: the unary
`+`/`-` rewrite, the number push (parser.rs:200-205, where a failing
`parse::<f64>()` makes `unwrap` panic, modelled by `fault`), and the operation
handling.  A token has exactly one type, so the source's two consecutive
`if`s are an `if`/`else if` here. -/
def process_token (token prevtoken : Token) (p : Parser) : StepResult :=
  let p1 := unary_rewrite token prevtoken p
  if token.is_number then
    match parseF64 token.value with
    | none => StepResult.fault p1
    | some q => StepResult.ok { p1 with numbers := FP.num q :: p1.numbers }
  else if token.is_operation then
    match handle_operation token.value p1 with
    | Except.error (e, p2) => StepResult.err e p2
    | Except.ok p2 => StepResult.ok p2
  else
    StepResult.ok p1

/-- Overall result of `Parser::calculate`: a value, a `ParseError`, or a Rust
panic (an uncatchable fault, which the Rust signature `Result<f64, ParseError>`
cannot express). -/
inductive Outcome where
  | ok (v : FP)
  | err (e : ParseError)
  | fault
deriving DecidableEq

/-- The termination check of `Parser::calculate` (parser.rs:245-253): more
than one number or a leftover operation is a `BadExpression`; otherwise the
top of the number stack (not popped!) is the result, and an empty number
stack is also a `BadExpression`. -/
def final_check (p : Parser) : Outcome :=
  if p.numbers.length > 1 ∨ p.operations.length > 0 then Outcome.err ParseError.BadExpression
  else
    match p.numbers with
    | v :: _ => Outcome.ok v
    | [] => Outcome.err ParseError.BadExpression

/-- The main loop of `Parser::calculate` (parser.rs:189-253), returning the
outcome together with the final parser state.  The loop is fuelled: every
iteration on a non-`Empty` token advances `pos` by at least one character and
the `Empty` token ends the loop, so `expression.length + 1` units of fuel
(what `calculate` supplies) always suffice; the fuel-exhaustion branch is
unreachable from `calculate` and conservatively reports a `fault`. -/
def run_loop (expression : List Char) :
    Nat → Nat → Token → Parser → Outcome × Parser
  | 0, _, _, p => (Outcome.fault, p)
  | fuel + 1, pos, prevtoken, p =>
    let tk := get_token expression pos
    match process_token tk.1 prevtoken p with
    | StepResult.fault p' => (Outcome.fault, p')
    | StepResult.err e p' => (Outcome.err e, p')
    | StepResult.ok p' =>
      if tk.1.token_type = TokenType.Empty then
        (final_check p', p')
      else
        run_loop expression fuel tk.2 tk.1 p'

/-- `Parser::calculate` (parser.rs:174-254).  The input is wrapped in an outer
`(` … `)` pair, whitespace is stripped, both stacks are cleared (so the prior
state `self` is irrelevant to the run), and the main loop starts at position
`0` with the sentinel previous token `"X"`. -/
def calculate (self : Parser) (origin_expression : String) : Outcome × Parser :=
  let expression := remove_whitespace ('(' :: origin_expression.data ++ [')'])
  run_loop expression (expression.length + 1) 0 ⟨"X", TokenType.Operation⟩ ⟨[], []⟩

theorem can_pop_operation_ops_ne_nil (p : Parser) (op : String)
    (h : can_pop_operation p op = true) : p.operations ≠ [] := by
  intro hops
  rw [can_pop_operation, hops] at h
  cases h

theorem pop_operation_err (p : Parser) (e : ParseError) (q : Parser)
    (hops : p.operations ≠ []) (h : pop_operation p = Except.error (e, q)) :
    e = ParseError.OperationBalance := by
  rcases p with ⟨nums, ops⟩
  match nums with
  | [] =>
    simp only [pop_operation, pop_number, Except.error.injEq, Prod.mk.injEq] at h
    exact h.1.symm
  | [a] =>
    simp only [pop_operation, pop_number, Except.error.injEq, Prod.mk.injEq] at h
    exact h.1.symm
  | a :: b :: rest =>
    simp only [pop_operation, pop_number] at h
    match ops, hops with
    | op :: ops', _ => simp at h

theorem drain_go_err (n : Nat) :
    ∀ (p : Parser) (e : ParseError) (q : Parser),
    drain_go n p = Except.error (e, q) → e = ParseError.OperationBalance := by
  induction n with
  | zero =>
    intro p e q h
    simp [drain_go] at h
  | succ n ih =>
    intro p e q h
    rw [drain_go] at h
    cases hops : p.operations with
    | nil => simp only [hops] at h; cases h
    | cons top rest =>
      simp only [hops] at h
      by_cases htop : top = "("
      · rw [if_pos htop] at h; cases h
      · rw [if_neg htop] at h
        cases hpop : pop_operation p with
        | error ep =>
          simp only [hpop, Except.error.injEq] at h
          subst h
          exact pop_operation_err p e q (hops ▸ List.cons_ne_nil top rest) hpop
        | ok p' =>
          simp only [hpop] at h
          exact ih p' e q h

theorem handle_operation_err (op : String) (p : Parser) (e : ParseError) (q : Parser)
    (h : handle_operation op p = Except.error (e, q)) :
    e = ParseError.OperationBalance := by
  unfold handle_operation at h
  by_cases hop : op = ")"
  · rw [if_pos hop] at h
    cases hd : drain_parens p with
    | error ep =>
      rw [hd] at h
      simp only [Except.error.injEq] at h
      subst h
      exact drain_go_err _ p e q hd
    | ok p' => rw [hd] at h; cases h
  · rw [if_neg hop] at h
    by_cases hcan : can_pop_operation p op
    · rw [if_pos hcan] at h
      cases hpop : pop_operation p with
      | error ep =>
        rw [hpop] at h
        simp only [Except.error.injEq] at h
        subst h
        exact pop_operation_err p e q (can_pop_operation_ops_ne_nil p op hcan) hpop
      | ok p' => rw [hpop] at h; cases h
    · rw [if_neg hcan] at h; cases h

theorem process_token_err (token prevtoken : Token) (p : Parser) (e : ParseError) (q : Parser)
    (h : process_token token prevtoken p = StepResult.err e q) :
    e = ParseError.OperationBalance := by
  simp only [process_token] at h
  split at h
  · split at h <;> cases h
  · split at h
    · split at h
      · rename_i e' q' hh
        cases h
        exact handle_operation_err _ _ _ _ hh
      · cases h
    · cases h

theorem final_check_err (p : Parser) (e : ParseError)
    (h : final_check p = Outcome.err e) : e = ParseError.BadExpression := by
  unfold final_check at h
  by_cases hc : p.numbers.length > 1 ∨ p.operations.length > 0
  · rw [if_pos hc] at h
    cases h
    rfl
  · rw [if_neg hc] at h
    cases hnum : p.numbers with
    | nil => rw [hnum] at h; cases h; rfl
    | cons x rest => rw [hnum] at h; cases h

theorem final_check_ok (p : Parser) (v : FP)
    (h : final_check p = Outcome.ok v) :
    p.numbers = [v] ∧ p.operations = [] := by
  unfold final_check at h
  by_cases hc : p.numbers.length > 1 ∨ p.operations.length > 0
  · rw [if_pos hc] at h; cases h
  · rw [if_neg hc] at h
    push_neg at hc
    cases hnum : p.numbers with
    | nil => rw [hnum] at h; cases h
    | cons x rest =>
      rw [hnum] at h
      cases h
      have hlen : p.numbers.length ≤ 1 := hc.1
      rw [hnum] at hlen
      simp only [List.length_cons] at hlen
      have hrest : rest = [] := List.length_eq_zero.mp (by omega)
      have hops : p.operations = [] := List.length_eq_zero.mp (Nat.le_zero.mp hc.2)
      subst hrest
      exact ⟨rfl, hops⟩

theorem run_loop_err (expression : List Char) (fuel : Nat) :
    ∀ (pos : Nat) (prevtoken : Token) (p : Parser) (e : ParseError),
    (run_loop expression fuel pos prevtoken p).1 = Outcome.err e →
    e = ParseError.BadExpression ∨ e = ParseError.OperationBalance := by
  induction fuel with
  | zero =>
    intro pos prevtoken p e h
    simp [run_loop] at h
  | succ fuel ih =>
    intro pos prevtoken p e h
    simp only [run_loop] at h
    cases hpt : process_token (get_token expression pos).1 prevtoken p with
    | fault p' => simp only [hpt] at h; cases h
    | err e' p' =>
      simp only [hpt] at h
      cases h
      exact Or.inr (process_token_err _ _ _ _ _ hpt)
    | ok p' =>
      simp only [hpt] at h
      by_cases hty : (get_token expression pos).1.token_type = TokenType.Empty
      · rw [if_pos hty] at h
        exact Or.inl (final_check_err p' e h)
      · rw [if_neg hty] at h
        exact ih _ _ _ _ h

theorem run_loop_ok_state (expression : List Char) (fuel : Nat) :
    ∀ (pos : Nat) (prevtoken : Token) (p : Parser) (v : FP),
    (run_loop expression fuel pos prevtoken p).1 = Outcome.ok v →
    (run_loop expression fuel pos prevtoken p).2.numbers = [v] ∧
      (run_loop expression fuel pos prevtoken p).2.operations = [] := by
  induction fuel with
  | zero =>
    intro pos prevtoken p v h
    simp [run_loop] at h
  | succ fuel ih =>
    intro pos prevtoken p v h
    simp only [run_loop] at h ⊢
    cases hpt : process_token (get_token expression pos).1 prevtoken p with
    | fault p' => simp only [hpt] at h; cases h
    | err e' p' => simp only [hpt] at h; cases h
    | ok p' =>
      simp only [hpt] at h ⊢
      by_cases hty : (get_token expression pos).1.token_type = TokenType.Empty
      · rw [if_pos hty] at h ⊢
        exact final_check_ok p' v h
      · rw [if_neg hty] at h ⊢
        exact ih _ _ _ _ h

theorem get_priority_paren : get_priority "(" = Except.ok (-1) := rfl

/-- Claim C1, counterexample: the claim quantifies over well-formed
expressions such as `"2-3*4-5"` and asserts the mathematically correct value
under standard precedence and left-to-right associativity; but `calculate`
returns `Ok(-5.0)` there, while the mathematical value `2 - 3*4 - 5` is
`-15`. -/
theorem C1_counterexample :
    (calculate ⟨[], []⟩ "2-3*4-5").1 = Outcome.ok (FP.num (-5)) ∧
    (2 : ℚ) - 3 * 4 - 5 = -15 ∧ FP.num (-5) ≠ FP.num (-15) :=
  ⟨by decide, by norm_num, by decide⟩

/-- Claim C1, amended: `calculate` applies `*`/`/` before `+`/`-` and reduces
equal-priority chains left to right, as long as at most one deferred
reduction is pending (`"2+3*4"` gives `14`, `"8-4-2"` gives `2`, `"(2+3)*4"`
gives `20`); but an incoming operator performs at most one pop-and-reduce, so
after a higher-precedence reduction it is pushed without reducing against the
remaining stack top, and the leftover equal-priority operators are folded
right to left when the closing parenthesis drains the stack: `"2-3*4-5"`
returns `Ok(-5.0)` instead of the mathematical `-15`. -/
theorem C1_amended :
    (calculate ⟨[], []⟩ "2+3*4").1 = Outcome.ok (FP.num 14) ∧
    (calculate ⟨[], []⟩ "8-4-2").1 = Outcome.ok (FP.num 2) ∧
    (calculate ⟨[], []⟩ "(2+3)*4").1 = Outcome.ok (FP.num 20) ∧
    (calculate ⟨[], []⟩ "2-3*4-5").1 = Outcome.ok (FP.num (-5)) :=
  ⟨by decide, by decide, by decide, by decide⟩

/-- Claim C2: the claim says `calculate` returns a `Result` on every input
and never aborts with an uncatchable fault; but on `"1.2.3"` the literal is
tokenized as one `Number` token whose `f64` parse fails, and
`parse().unwrap()` (parser.rs:203) panics — modelled by the `fault`
outcome. -/
theorem C2_parse_fault : (calculate ⟨[], []⟩ "1.2.3").1 = Outcome.fault := by
  decide

/-- Claim C3, counterexample: the claim says `calculate "2 2"` returns
`Err(BadExpression)`; in fact whitespace is stripped after wrapping, the two
literals merge, and the result is `Ok(22.0)`. -/
theorem C3_counterexample :
    (calculate ⟨[], []⟩ "2 2").1 = Outcome.ok (FP.num 22) ∧
    Outcome.ok (FP.num 22) ≠ Outcome.err ParseError.BadExpression :=
  ⟨by decide, by decide⟩

/-- Claim C3, amended: `calculate "2 2"` returns `Ok(22.0)`: whitespace is
stripped from the wrapped expression before tokenization, so the two numeric
literals merge into the single literal `22` and the input is evaluated
exactly like `"22"`. -/
theorem C3_amended :
    (calculate ⟨[], []⟩ "2 2").1 = Outcome.ok (FP.num 22) ∧
    (calculate ⟨[], []⟩ "2 2").1 = (calculate ⟨[], []⟩ "22").1 :=
  ⟨by decide, by decide⟩

/-- Claim C4, counterexample: the claim says `calculate "2+"` returns
`Err(BadExpression)`; in fact the drain at the closing wrap-parenthesis
reduces `"+"` with only one operand on the stack, the second operand pop
underflows, and the result is `Err(OperationBalance)`. -/
theorem C4_counterexample :
    (calculate ⟨[], []⟩ "2+").1 = Outcome.err ParseError.OperationBalance ∧
    Outcome.err ParseError.OperationBalance ≠ Outcome.err ParseError.BadExpression :=
  ⟨by decide, by decide⟩

/-- Claim C4, amended: `calculate "2+"` returns `Err(OperationBalance)`: the
trailing operator is reduced when the closing wrap-parenthesis drains the
operator stack, and popping the missing second operand signals
`OperationBalance`. -/
theorem C4_amended :
    (calculate ⟨[], []⟩ "2+").1 = Outcome.err ParseError.OperationBalance := by
  decide

/-- Claim C5: the multi-dot literal `"1.2.3"` is indeed tokenized as a single
`Number` token (first conjunct, on the wrapped expression `"(1.2.3)"` at
position 1) and its `f64` parse fails (second conjunct); but `calculate` then
panics on `unwrap` (parser.rs:203) — the `fault` outcome — instead of
returning `Err(BadExpression)` as the claim states. -/
theorem C5_tokenize_fault :
    get_token ('(' :: "1.2.3".data ++ [')']) 1 = (⟨"1.2.3", TokenType.Number⟩, 6) ∧
    parseF64 "1.2.3" = none ∧
    (calculate ⟨[], []⟩ "1.2.3").1 = Outcome.fault :=
  ⟨by decide, by decide, by decide⟩

/-- Claim C6, counterexample: the claim says both stacks are empty after each
successful call; in fact after `calculate "2+2"` the operand stack still
holds the result `4.0`, because the final value is read with `top()` and
never popped (parser.rs:250). -/
theorem C6_counterexample :
    (calculate ⟨[], []⟩ "2+2").1 = Outcome.ok (FP.num 4) ∧
    (calculate ⟨[], []⟩ "2+2").2.numbers = [FP.num 4] ∧
    ([FP.num 4] : List FP) ≠ [] :=
  ⟨by decide, by decide, by decide⟩

/-- Claim C6, amended: `calculate` clears both stacks on entry, so a second
call on the same parser instance returns the same result as the first; and
after a successful call the operator stack is empty while the operand stack
holds exactly the single result value (not nothing). -/
theorem C6_amended (origin : String) (p : Parser) :
    (calculate (calculate p origin).2 origin).1 = (calculate p origin).1 ∧
    ∀ v : FP, (calculate p origin).1 = Outcome.ok v →
      (calculate p origin).2.numbers = [v] ∧ (calculate p origin).2.operations = [] := by
  refine ⟨rfl, fun v h => ?_⟩
  exact run_loop_ok_state _ _ _ _ _ v h

/-- Witness for `C6_amended` at the input `"2+2"`. -/
theorem C6_amended_witness :
    (calculate (calculate ⟨[], []⟩ "2+2").2 "2+2").1 = (calculate ⟨[], []⟩ "2+2").1 ∧
    (calculate ⟨[], []⟩ "2+2").2.numbers = [FP.num 4] ∧
    (calculate ⟨[], []⟩ "2+2").2.operations = [] :=
  ⟨(C6_amended "2+2" ⟨[], []⟩).1,
    (C6_amended "2+2" ⟨[], []⟩).2 (FP.num 4) (by decide)⟩

/-- Claim C7: when the token is `+` or `-` and the preceding token is the
operation `"("`, a `0` operand is pushed before the operator is processed
(first conjunct: the unary rewrite of parser.rs:193-198 pushes `0`);
consequently `calculate "-5"` returns `Ok(-5.0)` and
`calculate "4+(-1)*(2+2)"` returns `Ok(0.0)`. -/
theorem C7_unary_rule (token prevtoken : Token) (p : Parser)
    (h1 : token.is_operation = true)
    (h2 : token.value = "+" ∨ token.value = "-")
    (h3 : prevtoken.is_operation = true)
    (h4 : prevtoken.value = "(") :
    unary_rewrite token prevtoken p = { p with numbers := FP.num 0 :: p.numbers } ∧
    (calculate ⟨[], []⟩ "-5").1 = Outcome.ok (FP.num (-5)) ∧
    (calculate ⟨[], []⟩ "4+(-1)*(2+2)").1 = Outcome.ok (FP.num 0) := by
  refine ⟨?_, by decide, by decide⟩
  rcases h2 with h2 | h2 <;> simp [unary_rewrite, h1, h2, h3, h4]

/-- Witness for `C7_unary_rule` at the token `"-"` after `"("`. -/
theorem C7_unary_rule_witness :
    unary_rewrite ⟨"-", TokenType.Operation⟩ ⟨"(", TokenType.Operation⟩ ⟨[], []⟩ =
      ⟨[FP.num 0], []⟩ ∧
    (calculate ⟨[], []⟩ "-5").1 = Outcome.ok (FP.num (-5)) ∧
    (calculate ⟨[], []⟩ "4+(-1)*(2+2)").1 = Outcome.ok (FP.num 0) :=
  C7_unary_rule ⟨"-", TokenType.Operation⟩ ⟨"(", TokenType.Operation⟩ ⟨[], []⟩
    (by decide) (Or.inr rfl) (by decide) rfl

/-- Claim C8: division by zero is not an error: `calculate "1/0"` returns
`Ok(+infinity)` and `calculate "0/0"` returns `Ok(NaN)`, by IEEE division
semantics. -/
theorem C8_division :
    (calculate ⟨[], []⟩ "1/0").1 = Outcome.ok (FP.inf true) ∧
    (calculate ⟨[], []⟩ "0/0").1 = Outcome.ok FP.nan :=
  ⟨by decide, by decide⟩

/-- Claim C9: an open parenthesis on top of the operator stack never
participates in priority-based reduction: `can_pop_operation` answers `false`
whenever the stack top is `"("` (so the one-step reduction before a push
never fires, and `pop_operation` is never invoked with `"("` on top), and the
closing-parenthesis drain stops at `"("` without invoking `pop_operation`,
leaving it to be popped only by the `operations.pop()` of the matching
`")"`. -/
theorem C9_paren_invariant (p : Parser) (op : String)
    (h : p.operations.head? = some "(") :
    can_pop_operation p op = false ∧ drain_parens p = Except.ok p := by
  cases hops : p.operations with
  | nil => rw [hops] at h; cases h
  | cons top rest =>
    rw [hops] at h
    simp only [List.head?_cons, Option.some.injEq] at h
    subst h
    constructor
    · cases hp : get_priority op with
      | ok p1 => simp [can_pop_operation, hops, hp, get_priority_paren]
      | error e => simp [can_pop_operation, hops, hp]
    · simp [drain_parens, drain_go, hops]

/-- Witness for `C9_paren_invariant` with `"("` on top and incoming `"+"`. -/
theorem C9_paren_invariant_witness :
    can_pop_operation ⟨[], ["("]⟩ "+" = false ∧
    drain_parens ⟨[], ["("]⟩ = Except.ok ⟨[], ["("]⟩ :=
  C9_paren_invariant ⟨[], ["("]⟩ "+" rfl

/-- Claim C10: every error `calculate` returns is `BadExpression` or
`OperationBalance`; `InvalidOperation` (swallowed by the can-reduce check)
and `PopFailure` (every `pop_operation` call site has a nonempty operator
stack) are never returned. -/
theorem C10_error_classes (s : String) (p : Parser) (e : ParseError)
    (h : (calculate p s).1 = Outcome.err e) :
    e = ParseError.BadExpression ∨ e = ParseError.OperationBalance :=
  run_loop_err _ _ _ _ _ _ h

/-- Witness for `C10_error_classes` at the input `"2+"`. -/
theorem C10_error_classes_witness :
    ParseError.OperationBalance = ParseError.BadExpression ∨
    ParseError.OperationBalance = ParseError.OperationBalance :=
  C10_error_classes "2+" ⟨[], []⟩ ParseError.OperationBalance (by decide)

end Blis
